import Mathlib

/-!
Shallow embedding of the `aipa` repository (src/jira_tickets.py and
src/main.py): a Jira ticket-provisioning script consisting of a thin HTTP
client (`JiraTicketGenerator`) with three create operations, and a hardcoded
plan driver (`generate_project_tickets`).

Modelling conventions:
* Python/JSON values exchanged with the tracker are modelled by the inductive
  `Json`; Python `None` is `Json.null` (as `json.dumps` serialises it to
  `null`).  Python dicts are association lists in insertion order.
* The network is an oracle `net : Request → HttpResponse`; each create
  operation performs exactly one POST, whose request we expose separately via
  `create_*_request` so that theorems can speak about the bytes sent.
* Python byte strings (the credential pair fed to `b64encode`) are `List Nat`
  with entries `< 256`; a Python `str` that only undergoes UTF-8 encoding is
  represented by its byte sequence.  `asciiBytes` encodes the ASCII literals
  appearing in the source.
* A Python function that can raise an uncaught exception returns `PyResult`:
  `ret` for a normal return, `exn` for an uncaught exception.
-/

namespace Aipa

/-- JSON values (also used for the Python values that are serialised into
request bodies): `null`, strings, arrays, and objects as ordered association
lists. -/
inductive Json where
  | null : Json
  | str : String → Json
  | arr : List Json → Json
  | obj : List (String × Json) → Json

/-- Dictionary lookup `j[k]` on a JSON object; `none` when `j` is not an
object or the key is absent (in Python those raise). -/
def Json.lookup : Json → String → Option Json
  | .obj fields, k => List.lookup k fields
  | _, _ => none

/-- Two-level lookup `j[k1][k2]`, used to inspect the `"fields"` object of a
request body. -/
def jsonField2 (j : Json) (k1 k2 : String) : Option Json :=
  (j.lookup k1).bind (fun f => f.lookup k2)

/-- Result of running a Python function: a returned value, or an uncaught
exception. -/
inductive PyResult (α : Type) where
  | ret : α → PyResult α
  | exn : String → PyResult α

/-- Whether a run ended in an uncaught exception. -/
def PyResult.isExn {α : Type} : PyResult α → Bool
  | .exn _ => true
  | .ret _ => false

/-! ## Base64 (the `base64.b64encode` used for the Basic-auth header) -/

/-- The standard base64 alphabet. -/
def b64Alphabet : List Char :=
  "ABCDEFGHIJKLMNOPQRSTUVWXYZabcdefghijklmnopqrstuvwxyz0123456789+/".toList

/-- The base64 character for a sextet value `n < 64`. -/
def b64EncodeChar (n : Nat) : Char :=
  b64Alphabet.getD n 'A'

/-- Inverse of `b64EncodeChar`: the sextet value of a base64 character, or
`none` for a character outside the alphabet (including the pad `=`). -/
def b64DecodeChar (c : Char) : Option Nat :=
  List.findIdx? (fun a => a = c) b64Alphabet

/-- RFC 4648 base64 encoding of a byte string, three bytes to four
characters, padded with `=`. -/
def b64encodeList : List Nat → List Char
  | [] => []
  | [b1] =>
      [b64EncodeChar (b1 / 4), b64EncodeChar (b1 % 4 * 16), '=', '=']
  | [b1, b2] =>
      [b64EncodeChar (b1 / 4), b64EncodeChar (b1 % 4 * 16 + b2 / 16),
       b64EncodeChar (b2 % 16 * 4), '=']
  | b1 :: b2 :: b3 :: rest =>
      b64EncodeChar (b1 / 4) :: b64EncodeChar (b1 % 4 * 16 + b2 / 16) ::
      b64EncodeChar (b2 % 16 * 4 + b3 / 64) :: b64EncodeChar (b3 % 64) ::
      b64encodeList rest

/-- Base64 encoding producing a string, as `b64encode(...).decode("utf-8")`
does. -/
def b64encode (bs : List Nat) : String :=
  String.mk (b64encodeList bs)

/-- Base64 decoding of a character stream: four characters to three bytes,
with `=`-padding allowed only in the final quantum; `none` on malformed
input. -/
def b64decodeList : List Char → Option (List Nat)
  | [] => some []
  | c1 :: c2 :: c3 :: c4 :: rest =>
      if rest = [] then
        if c3 = '=' then
          if c4 = '=' then
            match b64DecodeChar c1, b64DecodeChar c2 with
            | some s1, some s2 => some [s1 * 4 + s2 / 16]
            | _, _ => none
          else none
        else if c4 = '=' then
          match b64DecodeChar c1, b64DecodeChar c2, b64DecodeChar c3 with
          | some s1, some s2, some s3 =>
              some [s1 * 4 + s2 / 16, s2 % 16 * 16 + s3 / 4]
          | _, _, _ => none
        else
          match b64DecodeChar c1, b64DecodeChar c2, b64DecodeChar c3,
              b64DecodeChar c4 with
          | some s1, some s2, some s3, some s4 =>
              some [s1 * 4 + s2 / 16, s2 % 16 * 16 + s3 / 4, s3 % 4 * 64 + s4]
          | _, _, _, _ => none
      else
        match b64DecodeChar c1, b64DecodeChar c2, b64DecodeChar c3,
            b64DecodeChar c4, b64decodeList rest with
        | some s1, some s2, some s3, some s4, some bs =>
            some ((s1 * 4 + s2 / 16) :: (s2 % 16 * 16 + s3 / 4) ::
                  (s3 % 4 * 64 + s4) :: bs)
        | _, _, _, _, _ => none
  | _ => none

/-- Base64 decoding of a string. -/
def b64decode (s : String) : Option (List Nat) :=
  b64decodeList s.toList

/-- UTF-8 bytes of a pure-ASCII string (all string literals fed to the auth
encoder in this repository are ASCII). -/
def asciiBytes (s : String) : List Nat :=
  s.toList.map Char.toNat

/-! ## The client (`JiraTicketGenerator`) -/

/-- State of a `JiraTicketGenerator` instance after `__init__`: the three
attributes assigned there and never reassigned. -/
structure JiraTicketGenerator where
  jira_url : String
  project_key : String
  auth_header : List (String × String)

/-- `JiraTicketGenerator._create_auth_header`: builds
`{"Authorization": "Basic " + base64(email + ":" + api_token)}`.  The byte 58
is `":"`; UTF-8 of the f-string `f"{email}:{api_token}"` is the concatenation
of the operands' UTF-8 bytes. -/
def _create_auth_header (email api_token : List Nat) : List (String × String) :=
  [("Authorization", "Basic " ++ b64encode (email ++ 58 :: api_token))]

/-- `JiraTicketGenerator.__init__`: stores the URL and project key and
computes the auth header once. -/
def JiraTicketGenerator.init (jira_url : String) (email api_token : List Nat)
    (project_key : String) : JiraTicketGenerator :=
  { jira_url := jira_url
    project_key := project_key
    auth_header := _create_auth_header email api_token }

/-- The header dict each operation builds:
`{"Accept": ..., "Content-Type": ..., **self.auth_header}`. -/
def JiraTicketGenerator.requestHeaders (gen : JiraTicketGenerator) :
    List (String × String) :=
  [("Accept", "application/json"), ("Content-Type", "application/json")]
    ++ gen.auth_header

/-- An HTTP POST as issued by `requests.post`: URL, headers, and the payload
passed to `json.dumps` (kept as structured JSON; serialisation is injective
on this fragment and no claim depends on the byte layout of the body). -/
structure Request where
  url : String
  headers : List (String × String)
  data : Json

/-- An HTTP response as consumed by the client: `status_code`, the raw `text`
body, and the body as JSON (`none` when `response.json()` would raise because
the body is not valid JSON). -/
structure HttpResponse where
  status_code : Nat
  text : String
  json : Option Json

/-- The request built by `create_epic`. -/
def create_epic_request (gen : JiraTicketGenerator)
    (epic_name epic_summary epic_description : String) : Request :=
  { url := gen.jira_url ++ "/rest/api/2/issue/"
    headers := gen.requestHeaders
    data := Json.obj [("fields", Json.obj
      [("project", Json.obj [("key", Json.str gen.project_key)]),
       ("summary", Json.str epic_summary),
       ("description", Json.str epic_description),
       ("issuetype", Json.obj [("name", Json.str "Epic")]),
       ("customfield_10011", Json.str epic_name)])] }

/-- Shared response handling of all three create operations
(`if response.status_code == 201: return response.json()["key"] else:
print(...); return None`).  `response.json()` raising on a non-JSON body and
`[...]["key"]` raising on a missing key are the two `exn` outcomes; the
`else` branch prints the failure and returns `None`, so the byte-identical
code in the three methods is embedded once. -/
def handleCreateResponse (response : HttpResponse) : PyResult Json :=
  if response.status_code = 201 then
    match response.json with
    | some body =>
        match body.lookup "key" with
        | some v => PyResult.ret v
        | none => PyResult.exn "KeyError"
    | none => PyResult.exn "ValueError"
  else
    PyResult.ret Json.null

/-- `JiraTicketGenerator.create_epic`. -/
def create_epic (net : Request → HttpResponse) (gen : JiraTicketGenerator)
    (epic_name epic_summary epic_description : String) : PyResult Json :=
  handleCreateResponse
    (net (create_epic_request gen epic_name epic_summary epic_description))

/-- Python truthiness of an optional list argument (`if components:` /
`if labels:`): false for `None` and for the empty list. -/
def pyTruthyList (l : Option (List String)) : Bool :=
  match l with
  | none => false
  | some xs => !xs.isEmpty

/-- The request built by `create_story`: the base payload dict, then
`components` (each name wrapped as `{"name": comp}`) appended when the
argument is truthy, then `labels` appended when truthy.  The epic key is
placed into `customfield_10014` exactly as passed (so a `None` from a failed
epic create flows through as `null`). -/
def create_story_request (gen : JiraTicketGenerator) (epic_key : Json)
    (story_summary story_description : String)
    (components labels : Option (List String)) : Request :=
  let baseFields : List (String × Json) :=
    [("project", Json.obj [("key", Json.str gen.project_key)]),
     ("summary", Json.str story_summary),
     ("description", Json.str story_description),
     ("issuetype", Json.obj [("name", Json.str "Story")]),
     ("customfield_10014", epic_key)]
  let fields1 : List (String × Json) :=
    if pyTruthyList components then
      baseFields ++ [("components", Json.arr
        ((components.getD []).map (fun comp => Json.obj [("name", Json.str comp)])))]
    else baseFields
  let fields2 : List (String × Json) :=
    if pyTruthyList labels then
      fields1 ++ [("labels", Json.arr ((labels.getD []).map Json.str))]
    else fields1
  { url := gen.jira_url ++ "/rest/api/2/issue/"
    headers := gen.requestHeaders
    data := Json.obj [("fields", Json.obj fields2)] }

/-- `JiraTicketGenerator.create_story`. -/
def create_story (net : Request → HttpResponse) (gen : JiraTicketGenerator)
    (epic_key : Json) (story_summary story_description : String)
    (components labels : Option (List String)) : PyResult Json :=
  handleCreateResponse
    (net (create_story_request gen epic_key story_summary story_description
      components labels))

/-- The request built by `create_subtask`: the parent key is placed, exactly
as passed, under the structural `"parent": {"key": ...}` field. -/
def create_subtask_request (gen : JiraTicketGenerator) (parent_key : Json)
    (subtask_summary subtask_description : String) : Request :=
  { url := gen.jira_url ++ "/rest/api/2/issue/"
    headers := gen.requestHeaders
    data := Json.obj [("fields", Json.obj
      [("project", Json.obj [("key", Json.str gen.project_key)]),
       ("summary", Json.str subtask_summary),
       ("description", Json.str subtask_description),
       ("issuetype", Json.obj [("name", Json.str "Sub-task")]),
       ("parent", Json.obj [("key", parent_key)])])] }

/-- `JiraTicketGenerator.create_subtask`. -/
def create_subtask (net : Request → HttpResponse) (gen : JiraTicketGenerator)
    (parent_key : Json) (subtask_summary subtask_description : String) :
    PyResult Json :=
  handleCreateResponse
    (net (create_subtask_request gen parent_key subtask_summary
      subtask_description))


/-! ## The plan driver (`generate_project_tickets`) -/

/-- `create_epic` together with the request it issues (for tracing the
driver's POSTs). -/
def create_epic_traced (net : Request → HttpResponse)
    (gen : JiraTicketGenerator)
    (epic_name epic_summary epic_description : String) :
    PyResult Json × Request :=
  (create_epic net gen epic_name epic_summary epic_description,
   create_epic_request gen epic_name epic_summary epic_description)

/-- `create_story` together with the request it issues. -/
def create_story_traced (net : Request → HttpResponse)
    (gen : JiraTicketGenerator) (epic_key : Json)
    (story_summary story_description : String)
    (components labels : Option (List String)) :
    PyResult Json × Request :=
  (create_story net gen epic_key story_summary story_description
     components labels,
   create_story_request gen epic_key story_summary story_description
     components labels)

/-- `create_subtask` together with the request it issues. -/
def create_subtask_traced (net : Request → HttpResponse)
    (gen : JiraTicketGenerator) (parent_key : Json)
    (subtask_summary subtask_description : String) :
    PyResult Json × Request :=
  (create_subtask net gen parent_key subtask_summary subtask_description,
   create_subtask_request gen parent_key subtask_summary subtask_description)

/-- Sequencing of the driver's straight-line statements: the request of the
step is recorded, its returned key is bound for the continuation, and an
uncaught exception aborts the remaining statements. -/
def seqCreate {α : Type} (step : PyResult Json × Request)
    (k : Json → PyResult α × List Request) : PyResult α × List Request :=
  match step with
  | (PyResult.ret v, req) =>
      let next := k v
      (next.1, req :: next.2)
  | (PyResult.exn m, req) => (PyResult.exn m, [req])


/-- The `jira_url` string constant of `generate_project_tickets`. -/
def jira_url_lit : String :=
  "https://your-domain.atlassian.net"

/-- The `email` string constant of `generate_project_tickets`. -/
def email_lit : String :=
  "your-email@example.com"

/-- The `api_token` string constant of `generate_project_tickets`. -/
def api_token_lit : String :=
  "your-api-token"

/-- The `project_key` string constant of `generate_project_tickets`. -/
def project_key_lit : String :=
  "APA"

/-- The `epic1_desc` string constant of `generate_project_tickets`. -/
def epic1_desc : String :=
  "\n    This epic covers the setup of the core infrastructure for the AI Personal Assistant project.\n    It includes database setup, backend API creation, and prototype UI development.\n    \n    **Epic Dependencies:** None - Starting point\n    "

/-- The `story1_1_desc` string constant of `generate_project_tickets`. -/
def story1_1_desc : String :=
  "\n    ## Supabase Configuration (Week 1)\n    \n    **Dependencies:** None\n    \n    **Tasks:**\n    - Create Supabase account and project\n    - Set up authentication system\n    - Enable pgvector extension\n    - Implement database schema\n    \n    **Technologies:** Supabase, PostgreSQL, SQL, pgvector\n    \n    **Documentation:**\n    - [Supabase Documentation](https://supabase.com/docs)\n    - [pgvector Documentation](https://github.com/pgvector/pgvector)\n    - [Vector Embeddings with Supabase](https://supabase.com/docs/guides/database/extensions/pgvector)\n    \n    **Expected Outcome:** Functioning database with authentication and vector capabilities\n    \n    **Detailed Steps:**\n    1. Create Supabase account at supabase.com\n    2. Create new project with a descriptive name\n    3. Navigate to SQL Editor and run: `create extension vector;`\n    4. Execute database schema SQL from project plan\n    5. Configure row-level security policies for tables\n    6. Set up email authentication provider\n    7. Test vector operations with sample embeddings\n    \n    **Learning Resources:**\n    - [Supabase JavaScript Client](https://supabase.com/docs/reference/javascript/introduction)\n    - [Postgres Vector Cheatsheet](https://github.com/pgvector/pgvector/blob/master/README.md#usage)\n    - [Authentication with Supabase](https://supabase.com/docs/guides/auth)\n    "

/-- The `story1_2_desc` string constant of `generate_project_tickets`. -/
def story1_2_desc : String :=
  "\n    ## FastAPI Backend (Week 2)\n    \n    **Dependencies:** Story 1.1\n    \n    **Tasks:**\n    - Set up FastAPI project structure\n    - Configure Supabase client connection\n    - Create basic API endpoints\n    - Implement authentication middleware\n    \n    **Technologies:** Python, FastAPI, Pydantic, Supabase-py\n    \n    **Documentation:**\n    - [FastAPI Documentation](https://fastapi.tiangolo.com/)\n    - [Supabase Python Client](https://github.com/supabase-community/supabase-py)\n    - [FastAPI Security](https://fastapi.tiangolo.com/tutorial/security/)\n    \n    **Expected Outcome:** Working API server with Supabase connection and authentication\n    \n    **Detailed Steps:**\n    1. Set up virtual environment: `python -m venv venv`\n    2. Install dependencies: `pip install fastapi uvicorn supabase pydantic python-dotenv`\n    3. Create project structure\n    4. Create Supabase client in config.py\n    5. Implement JWT verification middleware\n    6. Create basic health check endpoints\n    7. Add user authentication routes\n    \n    **Learning Resources:**\n    - [FastAPI Tutorial](https://fastapi.tiangolo.com/tutorial/)\n    - [Dependency Injection in FastAPI](https://fastapi.tiangolo.com/tutorial/dependencies/)\n    - [JWT Authentication in FastAPI](https://fastapi.tiangolo.com/tutorial/security/oauth2-jwt/)\n    "

/-- The `story1_3_desc` string constant of `generate_project_tickets`. -/
def story1_3_desc : String :=
  "\n    ## Streamlit Prototype (Week 3)\n    \n    **Dependencies:** Story 1.2\n    \n    **Tasks:**\n    - Initialize Streamlit project\n    - Create basic authentication flow\n    - Implement simple UI components\n    - Connect to FastAPI endpoints\n    \n    **Technologies:** Python, Streamlit, Requests\n    \n    **Documentation:**\n    - [Streamlit Documentation](https://docs.streamlit.io/)\n    - [Streamlit Authentication](https://docs.streamlit.io/knowledge-base/deploy/authentication)\n    \n    **Expected Outcome:** Basic functional web interface for testing core features\n    \n    **Detailed Steps:**\n    1. Install Streamlit: `pip install streamlit requests`\n    2. Create project structure\n    3. Implement Supabase authentication flow\n    4. Create session management\n    5. Build basic chat interface component\n    6. Create API client to communicate with FastAPI backend\n    \n    **Learning Resources:**\n    - [Streamlit Tutorial](https://docs.streamlit.io/get-started)\n    - [Building Streamlit Apps](https://docs.streamlit.io/library/get-started/create-an-app)\n    - [Session State in Streamlit](https://docs.streamlit.io/library/api-reference/session-state)\n    "

/-- The `epic2_desc` string constant of `generate_project_tickets`. -/
def epic2_desc : String :=
  "\n    This epic focuses on integrating calendar and email functionality into the AI personal assistant.\n    It includes connecting to Google Calendar and Gmail/Outlook APIs and implementing management features.\n    \n    **Epic Dependencies:** Epic 1\n    "

/-- The `story2_1_desc` string constant of `generate_project_tickets`. -/
def story2_1_desc : String :=
  "\n    ## Google Calendar Integration (Week 4)\n    \n    **Dependencies:** Story 1.2\n    \n    **Tasks:**\n    - Set up Google API credentials\n    - Implement OAuth flow\n    - Create calendar event management functions\n    - Build calendar sync system\n    \n    **Technologies:** Google Calendar API, FastAPI\n    \n    **Documentation:**\n    - [Google Calendar API](https://developers.google.com/calendar/api/guides/overview)\n    - [OAuth 2.0 for Web Server Applications](https://developers.google.com/identity/protocols/oauth2/web-server)\n    \n    **Expected Outcome:** System that can read and manage Google Calendar events\n    \n    **Learning Resources:**\n    - [Google API Python Client](https://github.com/googleapis/google-api-python-client)\n    - [OAuth 2.0 Flow Tutorial](https://developers.google.com/identity/protocols/oauth2/web-server#python)\n    "

/-- The `epic3_desc` string constant of `generate_project_tickets`. -/
def epic3_desc : String :=
  "\n    This epic covers the integration of large language models and the agent architecture.\n    It includes setting up LangChain, creating basic and advanced agent systems, and implementing NLP features.\n    \n    **Epic Dependencies:** Epic 1\n    "

/-- The `story3_1_desc` string constant of `generate_project_tickets`. -/
def story3_1_desc : String :=
  "\n    ## LangChain Setup (Week 3)\n    \n    **Dependencies:** Story 1.2\n    \n    **Tasks:**\n    - Set up LangChain environment\n    - Configure LLM providers (OpenAI/Anthropic)\n    - Create basic prompt templates\n    - Implement conversation history storage\n    \n    **Technologies:** Python, LangChain, OpenAI API, Anthropic API\n    \n    **Documentation:**\n    - [LangChain Documentation](https://python.langchain.com/docs/get_started/introduction)\n    - [LangChain with OpenAI](https://python.langchain.com/docs/integrations/llms/openai)\n    - [LangChain with Anthropic](https://python.langchain.com/docs/integrations/llms/anthropic)\n    \n    **Expected Outcome:** Working LLM integration with basic conversation abilities\n    \n    **Learning Resources:**\n    - [LangChain Quickstart](https://python.langchain.com/docs/get_started/quickstart)\n    - [Working with LLMs](https://python.langchain.com/docs/modules/model_io/)\n    - [Chat Models in LangChain](https://python.langchain.com/docs/modules/model_io/chat/)\n    "

/-- The `epic4_desc` string constant of `generate_project_tickets`. -/
def epic4_desc : String :=
  "\n    This epic focuses on developing job application support features.\n    It includes experience management, Google Drive integration, job application agent system, and interview preparation.\n    \n    **Epic Dependencies:** Epic 1, Epic 3\n    "

/-- The `epic5_desc` string constant of `generate_project_tickets`. -/
def epic5_desc : String :=
  "\n    This epic covers the development of London activity planning features.\n    It includes event discovery, activity recommendation, and activity planning functionality.\n    \n    **Epic Dependencies:** Epic 1, Epic 3\n    "

/-- The `epic6_desc` string constant of `generate_project_tickets`. -/
def epic6_desc : String :=
  "\n    This epic focuses on creating the production-ready interface.\n    It includes React setup, agent visualization, user interface development, and mobile experience.\n    \n    **Epic Dependencies:** All previous Epics\n    "

/-- The `epic7_desc` string constant of `generate_project_tickets`. -/
def epic7_desc : String :=
  "\n    This epic covers the deployment and productization of the application.\n    It includes CI/CD setup, cloud deployment, self-improvement mechanism, and user testing preparation.\n    \n    **Epic Dependencies:** All previous Epics\n    "

/-- Shallow embedding of `generate_project_tickets` (src/jira_tickets.py). The
network is abstracted as an oracle `net`; the second component collects the
POST requests issued, in order, up to the point an uncaught exception aborts
the run. Each `fun v =>` binding captures the key returned by the preceding
create, exactly as the Python locals and the `epic_keys` dict do. -/
def generate_project_tickets (net : Request → HttpResponse) :
    PyResult String × List Request :=
  let jira : JiraTicketGenerator :=
    JiraTicketGenerator.init jira_url_lit (asciiBytes email_lit)
      (asciiBytes api_token_lit) project_key_lit
  seqCreate (create_epic_traced net jira "Core Infrastructure Setup" "Epic 1: Core Infrastructure Setup" epic1_desc)
    fun epic1_key =>
  seqCreate (create_story_traced net jira epic1_key "Story 1.1: Supabase Configuration" story1_1_desc (some ["Database"]) (some ["week-1"]))
    fun story1_1_key =>
  seqCreate (create_subtask_traced net jira story1_1_key "Create Supabase account and project" "Sign up for Supabase and create a new project for the AI Personal Assistant.")
    fun sub1 =>
  seqCreate (create_subtask_traced net jira story1_1_key "Enable pgvector extension" "Run SQL command to enable the pgvector extension in the Supabase database.")
    fun sub2 =>
  seqCreate (create_subtask_traced net jira story1_1_key "Implement database schema" "Create database tables according to the schema defined in the project plan.")
    fun sub3 =>
  seqCreate (create_subtask_traced net jira story1_1_key "Configure row-level security" "Set up row-level security policies to ensure proper data access control.")
    fun sub4 =>
  seqCreate (create_subtask_traced net jira story1_1_key "Set up authentication system" "Configure email authentication provider and test user signup/login flow.")
    fun sub5 =>
  seqCreate (create_story_traced net jira epic1_key "Story 1.2: FastAPI Backend" story1_2_desc (some ["Backend"]) (some ["week-2"]))
    fun story1_2_key =>
  seqCreate (create_subtask_traced net jira story1_2_key "Set up FastAPI project structure" "Create the directory structure and initial files for the FastAPI application.")
    fun sub6 =>
  seqCreate (create_subtask_traced net jira story1_2_key "Configure Supabase client connection" "Set up the Supabase client in the FastAPI application with proper environment variables.")
    fun sub7 =>
  seqCreate (create_subtask_traced net jira story1_2_key "Implement authentication middleware" "Create middleware to verify JWT tokens from Supabase auth.")
    fun sub8 =>
  seqCreate (create_subtask_traced net jira story1_2_key "Create basic API endpoints" "Implement health check and initial API endpoints.")
    fun sub9 =>
  seqCreate (create_story_traced net jira epic1_key "Story 1.3: Streamlit Prototype" story1_3_desc (some ["Frontend"]) (some ["week-3"]))
    fun story1_3_key =>
  seqCreate (create_subtask_traced net jira story1_3_key "Initialize Streamlit project" "Create the basic Streamlit application structure.")
    fun sub10 =>
  seqCreate (create_subtask_traced net jira story1_3_key "Create authentication flow" "Implement login, logout, and session management in Streamlit.")
    fun sub11 =>
  seqCreate (create_subtask_traced net jira story1_3_key "Build basic UI components" "Create the main UI components for the application.")
    fun sub12 =>
  seqCreate (create_subtask_traced net jira story1_3_key "Connect to FastAPI endpoints" "Integrate the Streamlit frontend with the FastAPI backend.")
    fun sub13 =>
  seqCreate (create_epic_traced net jira "Calendar & Email Integration" "Epic 2: Calendar & Email Integration" epic2_desc)
    fun epic2_key =>
  seqCreate (create_story_traced net jira epic2_key "Story 2.1: Google Calendar Integration" story2_1_desc (some ["API Integration"]) (some ["week-4"]))
    fun story2_1_key =>
  seqCreate (create_epic_traced net jira "LLM & Agent Integration" "Epic 3: LLM & Agent Integration" epic3_desc)
    fun epic3_key =>
  seqCreate (create_story_traced net jira epic3_key "Story 3.1: LangChain Setup" story3_1_desc (some ["AI Integration"]) (some ["week-3"]))
    fun story3_1_key =>
  seqCreate (create_epic_traced net jira "Job Application Support" "Epic 4: Job Application Support" epic4_desc)
    fun epic4_key =>
  seqCreate (create_epic_traced net jira "London Activity Planning" "Epic 5: London Activity Planning" epic5_desc)
    fun epic5_key =>
  seqCreate (create_epic_traced net jira "Production Interface" "Epic 6: Production Interface" epic6_desc)
    fun epic6_key =>
  seqCreate (create_epic_traced net jira "Deployment & Productization" "Epic 7: Deployment & Productization" epic7_desc)
    fun epic7_key =>
  (PyResult.ret "Successfully generated project tickets!", [])

/-! ## The entry module (src/main.py) -/

/-- The four values read at the top of `src/main.py`. -/
structure MainEnv where
  jira_api_key : Option String
  jira_email : Option String
  jira_url : Option String
  jira_project_key : Option String

/-- The module-level environment reads of `src/main.py`
(`os.getenv(...)` for each of the four documented variable names), over an
abstract process environment `getenv`. -/
def main_read_env (getenv : String → Option String) : MainEnv :=
  { jira_api_key := getenv "JIRA_API_KEY"
    jira_email := getenv "JIRA_EMAIL"
    jira_url := getenv "JIRA_URL"
    jira_project_key := getenv "JIRA_PROJECT_KEY" }

/-- The client instance constructed inside `generate_project_tickets`: its
constructor arguments are the placeholder literals of the function body.
`generate_project_tickets` reads no environment variable, so this instance is
a constant. -/
def driver_jira : JiraTicketGenerator :=
  JiraTicketGenerator.init jira_url_lit (asciiBytes email_lit)
    (asciiBytes api_token_lit) project_key_lit

/-! ## Base64 lemmas -/

/-- Decoding a base64 character recovers the sextet it encodes. -/
theorem b64DecodeChar_b64EncodeChar :
    ∀ n : Nat, n < 64 → b64DecodeChar (b64EncodeChar n) = some n := by
  decide

/-- No alphabet character is the padding character. -/
theorem b64EncodeChar_ne_pad :
    ∀ n : Nat, n < 64 → ¬(b64EncodeChar n = '=') := by
  decide

/-- The encoding of a nonempty byte string is nonempty. -/
theorem b64encodeList_ne_nil (b : Nat) (l : List Nat) :
    b64encodeList (b :: l) ≠ [] := by
  match l with
  | [] => simp [b64encodeList]
  | [b2] => simp [b64encodeList]
  | b2 :: b3 :: rest => simp [b64encodeList]

/-- Round trip at the character-list level: decoding the encoding of any byte
string recovers it. -/
theorem b64decodeList_b64encodeList :
    ∀ bs : List Nat, (∀ b ∈ bs, b < 256) →
      b64decodeList (b64encodeList bs) = some bs
  | [], _ => rfl
  | [b1], h => by
      have hb1 : b1 < 256 := h b1 (by simp)
      have e1 := b64DecodeChar_b64EncodeChar (b1 / 4) (by omega)
      have e2 := b64DecodeChar_b64EncodeChar (b1 % 4 * 16) (by omega)
      simp [b64encodeList, b64decodeList, e1, e2]
      all_goals omega
  | [b1, b2], h => by
      have hb1 : b1 < 256 := h b1 (by simp)
      have hb2 : b2 < 256 := h b2 (by simp)
      have e1 := b64DecodeChar_b64EncodeChar (b1 / 4) (by omega)
      have e2 := b64DecodeChar_b64EncodeChar (b1 % 4 * 16 + b2 / 16) (by omega)
      have e3 := b64DecodeChar_b64EncodeChar (b2 % 16 * 4) (by omega)
      have n3 := b64EncodeChar_ne_pad (b2 % 16 * 4) (by omega)
      simp [b64encodeList, b64decodeList, e1, e2, e3, n3]
      all_goals omega
  | [b1, b2, b3], h => by
      have hb1 : b1 < 256 := h b1 (by simp)
      have hb2 : b2 < 256 := h b2 (by simp)
      have hb3 : b3 < 256 := h b3 (by simp)
      have e1 := b64DecodeChar_b64EncodeChar (b1 / 4) (by omega)
      have e2 := b64DecodeChar_b64EncodeChar (b1 % 4 * 16 + b2 / 16) (by omega)
      have e3 := b64DecodeChar_b64EncodeChar (b2 % 16 * 4 + b3 / 64) (by omega)
      have e4 := b64DecodeChar_b64EncodeChar (b3 % 64) (by omega)
      have n3 := b64EncodeChar_ne_pad (b2 % 16 * 4 + b3 / 64) (by omega)
      have n4 := b64EncodeChar_ne_pad (b3 % 64) (by omega)
      simp [b64encodeList, b64decodeList, e1, e2, e3, e4, n3, n4]
      all_goals omega
  | b1 :: b2 :: b3 :: r :: rs, h => by
      have hb1 : b1 < 256 := h b1 (by simp)
      have hb2 : b2 < 256 := h b2 (by simp)
      have hb3 : b3 < 256 := h b3 (by simp)
      have e1 := b64DecodeChar_b64EncodeChar (b1 / 4) (by omega)
      have e2 := b64DecodeChar_b64EncodeChar (b1 % 4 * 16 + b2 / 16) (by omega)
      have e3 := b64DecodeChar_b64EncodeChar (b2 % 16 * 4 + b3 / 64) (by omega)
      have e4 := b64DecodeChar_b64EncodeChar (b3 % 64) (by omega)
      have hne := b64encodeList_ne_nil r rs
      have ih := b64decodeList_b64encodeList (r :: rs)
        (fun b hb => h b (List.mem_cons_of_mem _ (List.mem_cons_of_mem _
          (List.mem_cons_of_mem _ hb))))
      simp [b64encodeList, b64decodeList, e1, e2, e3, e4, hne, ih]
      all_goals omega

/-- Round trip at the string level. -/
theorem b64decode_b64encode (bs : List Nat) (h : ∀ b ∈ bs, b < 256) :
    b64decode (b64encode bs) = some bs :=
  b64decodeList_b64encodeList bs h

/-! ## Mock trackers used in concrete evaluations -/

/-- A mock tracker that rejects every request with status 400 and a plain
text body. -/
def reject400 : Request → HttpResponse :=
  fun _ => { status_code := 400, text := "Bad Request", json := none }

/-- A mock tracker that accepts every request with status 201 and the JSON
body `{"key": "APA-1"}`. -/
def accept201 : Request → HttpResponse :=
  fun _ =>
    { status_code := 201
      text := ""
      json := some (Json.obj [("key", Json.str "APA-1")]) }

/-- A mock tracker answering 201 with a body that is not valid JSON. -/
def accept201BadBody : Request → HttpResponse :=
  fun _ => { status_code := 201, text := "<html>", json := none }

/-- A mock tracker answering 201 with a JSON object lacking `"key"`. -/
def accept201NoKey : Request → HttpResponse :=
  fun _ =>
    { status_code := 201
      text := ""
      json := some (Json.obj [("id", Json.str "10001")]) }

/-- A sample process environment supplying only `JIRA_URL`. -/
def envSample : String → Option String :=
  fun k => if k = "JIRA_URL" then some "https://real.atlassian.net" else none

/-! ## Claims -/

/-- C3: for every credential pair the authorization header value built at
client initialisation is byte-for-byte `"Basic "` followed by the base64
encoding of `email ++ ":" ++ api_token`, and base64-decoding the part after
`"Basic "` recovers exactly `email ++ ":" ++ api_token`.  Credentials are
byte strings (the UTF-8 of the Python `str` arguments); 58 is `":"`. -/
theorem c3_auth_header_basic_base64 (email api_token : List Nat)
    (hE : ∀ b ∈ email, b < 256) (hT : ∀ b ∈ api_token, b < 256) :
    _create_auth_header email api_token
      = [("Authorization", "Basic " ++ b64encode (email ++ 58 :: api_token))]
    ∧ b64decode (b64encode (email ++ 58 :: api_token))
      = some (email ++ 58 :: api_token) := by
  refine ⟨rfl, b64decode_b64encode _ ?_⟩
  intro b hb
  rcases List.mem_append.1 hb with h1 | h2
  · exact hE b h1
  · rcases List.mem_cons.1 h2 with h3 | h4
    · omega
    · exact hT b h4

/-- Witness for C3 at a concrete credential pair. -/
theorem c3_auth_header_basic_base64_witness :
    _create_auth_header (asciiBytes "user@example.com") (asciiBytes "s3cret")
      = [("Authorization", "Basic " ++ b64encode
          (asciiBytes "user@example.com" ++ 58 :: asciiBytes "s3cret"))]
    ∧ b64decode (b64encode (asciiBytes "user@example.com" ++ 58 :: asciiBytes "s3cret"))
      = some (asciiBytes "user@example.com" ++ 58 :: asciiBytes "s3cret") :=
  c3_auth_header_basic_base64 (asciiBytes "user@example.com")
    (asciiBytes "s3cret") (by decide) (by decide)

/-- C1 (refuting theorem): the claim states that on a non-success status the
status code and response body are returned or otherwise observable to the
caller.  In the code each create prints `response.text` and returns `None`:
for every response body `t` the value returned to the caller is the same bare
`None`, carrying neither the status nor the body, for all three operations. -/
theorem c1_failure_details_not_surfaced (t en es ed ss sd us ud : String) :
    create_epic (fun _ => { status_code := 400, text := t, json := none })
        driver_jira en es ed = PyResult.ret Json.null
    ∧ create_story (fun _ => { status_code := 400, text := t, json := none })
        driver_jira (Json.str "APA-1") ss sd (some ["Database"]) (some ["week-1"])
        = PyResult.ret Json.null
    ∧ create_subtask (fun _ => { status_code := 400, text := t, json := none })
        driver_jira (Json.str "APA-1") us ud = PyResult.ret Json.null :=
  ⟨rfl, rfl, rfl⟩

/-- C4: if the tracker responds with status 201 and a JSON body containing
`"key"`, each create operation returns exactly that key's value. -/
theorem c4_created_key_returned (net : Request → HttpResponse)
    (gen : JiraTicketGenerator) (en es ed : String) (ek : Json) (ss sd : String)
    (cs ls : Option (List String)) (pk : Json) (us ud : String)
    (body v : Json) :
    ((net (create_epic_request gen en es ed)).status_code = 201 →
      (net (create_epic_request gen en es ed)).json = some body →
      body.lookup "key" = some v →
      create_epic net gen en es ed = PyResult.ret v)
    ∧ ((net (create_story_request gen ek ss sd cs ls)).status_code = 201 →
      (net (create_story_request gen ek ss sd cs ls)).json = some body →
      body.lookup "key" = some v →
      create_story net gen ek ss sd cs ls = PyResult.ret v)
    ∧ ((net (create_subtask_request gen pk us ud)).status_code = 201 →
      (net (create_subtask_request gen pk us ud)).json = some body →
      body.lookup "key" = some v →
      create_subtask net gen pk us ud = PyResult.ret v) := by
  refine ⟨fun h1 h2 h3 => ?_, fun h1 h2 h3 => ?_, fun h1 h2 h3 => ?_⟩
  · simp [create_epic, handleCreateResponse, h1, h2, h3]
  · simp [create_story, handleCreateResponse, h1, h2, h3]
  · simp [create_subtask, handleCreateResponse, h1, h2, h3]

/-- Witness for C4: the spec scenario — a mock returning 201 with body
`{"key": "APA-1"}` makes an epic create (summary `"Test Epic"`) return
`"APA-1"`, and likewise the other two operations. -/
theorem c4_created_key_returned_witness :
    create_epic accept201 driver_jira "Test Epic" "Test Epic" "d"
      = PyResult.ret (Json.str "APA-1")
    ∧ create_story accept201 driver_jira (Json.str "APA-1") "s" "d"
        (some ["Database"]) (some ["week-1"]) = PyResult.ret (Json.str "APA-1")
    ∧ create_subtask accept201 driver_jira (Json.str "APA-1") "s" "d"
      = PyResult.ret (Json.str "APA-1") :=
  ⟨(c4_created_key_returned accept201 driver_jira "Test Epic" "Test Epic" "d"
      (Json.str "APA-1") "s" "d" (some ["Database"]) (some ["week-1"])
      (Json.str "APA-1") "s" "d" (Json.obj [("key", Json.str "APA-1")])
      (Json.str "APA-1")).1 rfl rfl rfl,
   (c4_created_key_returned accept201 driver_jira "Test Epic" "Test Epic" "d"
      (Json.str "APA-1") "s" "d" (some ["Database"]) (some ["week-1"])
      (Json.str "APA-1") "s" "d" (Json.obj [("key", Json.str "APA-1")])
      (Json.str "APA-1")).2.1 rfl rfl rfl,
   (c4_created_key_returned accept201 driver_jira "Test Epic" "Test Epic" "d"
      (Json.str "APA-1") "s" "d" (some ["Database"]) (some ["week-1"])
      (Json.str "APA-1") "s" "d" (Json.obj [("key", Json.str "APA-1")])
      (Json.str "APA-1")).2.2 rfl rfl rfl⟩

/-- C5: the story request body carries the epic-link field
(`customfield_10014`) set to exactly the parent key passed in, the subtask
request body carries the structural `parent` field set to exactly the parent
key passed in, and each operation's body carries the matching issue-type
literal (`"Epic"`, `"Story"`, `"Sub-task"`). -/
theorem c5_parent_fields_exact (gen : JiraTicketGenerator)
    (en es ed : String) (ek : Json) (ss sd : String)
    (cs ls : Option (List String)) (pk : Json) (us ud : String) :
    jsonField2 (create_story_request gen ek ss sd cs ls).data
        "fields" "customfield_10014" = some ek
    ∧ jsonField2 (create_subtask_request gen pk us ud).data
        "fields" "parent" = some (Json.obj [("key", pk)])
    ∧ jsonField2 (create_epic_request gen en es ed).data
        "fields" "issuetype" = some (Json.obj [("name", Json.str "Epic")])
    ∧ jsonField2 (create_story_request gen ek ss sd cs ls).data
        "fields" "issuetype" = some (Json.obj [("name", Json.str "Story")])
    ∧ jsonField2 (create_subtask_request gen pk us ud).data
        "fields" "issuetype" = some (Json.obj [("name", Json.str "Sub-task")]) := by
  refine ⟨?_, rfl, rfl, ?_, rfl⟩
  · cases hc : pyTruthyList cs <;> cases hl : pyTruthyList ls <;>
      simp [create_story_request, jsonField2, Json.lookup, List.lookup, hc, hl]
  · cases hc : pyTruthyList cs <;> cases hl : pyTruthyList ls <;>
      simp [create_story_request, jsonField2, Json.lookup, List.lookup, hc, hl]

/-- C6: for truthy component and label arguments, the story body's fields
object wraps each component name as `{"name": comp}` and passes labels
through unchanged. -/
theorem c6_components_wrapped_labels_passed (gen : JiraTicketGenerator)
    (ek : Json) (ss sd : String) (cs ls : List String)
    (hcs : cs ≠ []) (hls : ls ≠ []) :
    jsonField2 (create_story_request gen ek ss sd (some cs) (some ls)).data
        "fields" "components"
      = some (Json.arr (cs.map (fun comp => Json.obj [("name", Json.str comp)])))
    ∧ jsonField2 (create_story_request gen ek ss sd (some cs) (some ls)).data
        "fields" "labels"
      = some (Json.arr (ls.map Json.str)) := by
  have hc : pyTruthyList (some cs) = true := by
    simp [pyTruthyList, hcs]
  have hl : pyTruthyList (some ls) = true := by
    simp [pyTruthyList, hls]
  constructor
  · simp [create_story_request, jsonField2, Json.lookup, List.lookup, hc, hl]
  · simp [create_story_request, jsonField2, Json.lookup, List.lookup, hc, hl]

/-- Witness for C6: the spec scenario — a story under epic `"APA-1"` with
components `["Database"]` and labels `["week-1"]` yields
`"components": [{"name": "Database"}]` and `"labels": ["week-1"]`. -/
theorem c6_components_wrapped_labels_passed_witness :
    jsonField2 (create_story_request driver_jira (Json.str "APA-1")
        "Story 1.1: Supabase Configuration" "d" (some ["Database"])
        (some ["week-1"])).data "fields" "components"
      = some (Json.arr [Json.obj [("name", Json.str "Database")]])
    ∧ jsonField2 (create_story_request driver_jira (Json.str "APA-1")
        "Story 1.1: Supabase Configuration" "d" (some ["Database"])
        (some ["week-1"])).data "fields" "labels"
      = some (Json.arr [Json.str "week-1"]) :=
  c6_components_wrapped_labels_passed driver_jira (Json.str "APA-1")
    "Story 1.1: Supabase Configuration" "d" ["Database"] ["week-1"]
    (by simp) (by simp)

/-- C7: for every create operation and every response whose status is not
201, the operation returns `None` — the caller receives no issue key. -/
theorem c7_failure_returns_no_key (net : Request → HttpResponse)
    (gen : JiraTicketGenerator) (en es ed : String) (ek : Json) (ss sd : String)
    (cs ls : Option (List String)) (pk : Json) (us ud : String) :
    ((net (create_epic_request gen en es ed)).status_code ≠ 201 →
      create_epic net gen en es ed = PyResult.ret Json.null)
    ∧ ((net (create_story_request gen ek ss sd cs ls)).status_code ≠ 201 →
      create_story net gen ek ss sd cs ls = PyResult.ret Json.null)
    ∧ ((net (create_subtask_request gen pk us ud)).status_code ≠ 201 →
      create_subtask net gen pk us ud = PyResult.ret Json.null) := by
  refine ⟨fun h => ?_, fun h => ?_, fun h => ?_⟩
  · simp [create_epic, handleCreateResponse, h]
  · simp [create_story, handleCreateResponse, h]
  · simp [create_subtask, handleCreateResponse, h]

/-- Witness for C7 against the 400-rejecting mock. -/
theorem c7_failure_returns_no_key_witness :
    create_epic reject400 driver_jira "e" "s" "d" = PyResult.ret Json.null
    ∧ create_story reject400 driver_jira (Json.str "APA-1") "s" "d"
        (some ["Database"]) (some ["week-1"]) = PyResult.ret Json.null
    ∧ create_subtask reject400 driver_jira (Json.str "APA-1") "s" "d"
      = PyResult.ret Json.null :=
  ⟨(c7_failure_returns_no_key reject400 driver_jira "e" "s" "d"
      (Json.str "APA-1") "s" "d" (some ["Database"]) (some ["week-1"])
      (Json.str "APA-1") "s" "d").1 (by decide),
   (c7_failure_returns_no_key reject400 driver_jira "e" "s" "d"
      (Json.str "APA-1") "s" "d" (some ["Database"]) (some ["week-1"])
      (Json.str "APA-1") "s" "d").2.1 (by decide),
   (c7_failure_returns_no_key reject400 driver_jira "e" "s" "d"
      (Json.str "APA-1") "s" "d" (some ["Database"]) (some ["week-1"])
      (Json.str "APA-1") "s" "d").2.2 (by decide)⟩

/-- C9: the authorization header is computed once in `__init__` and is the
client state attached unchanged by every subsequent operation; no operation
alters `jira_url`, `project_key` or `auth_header` (the Python methods contain
no assignment to `self` outside `__init__`, so the instance is embedded as an
immutable record, and every request builder reads the same fields). -/
theorem c9_client_state_immutable (url : String) (email api_token : List Nat)
    (pkey : String) (en es ed : String) (ek : Json) (ss sd : String)
    (cs ls : Option (List String)) (pk : Json) (us ud : String) :
    (JiraTicketGenerator.init url email api_token pkey).auth_header
      = _create_auth_header email api_token
    ∧ (create_epic_request (JiraTicketGenerator.init url email api_token pkey)
        en es ed).headers
      = [("Accept", "application/json"), ("Content-Type", "application/json")]
        ++ _create_auth_header email api_token
    ∧ (create_story_request (JiraTicketGenerator.init url email api_token pkey)
        ek ss sd cs ls).headers
      = [("Accept", "application/json"), ("Content-Type", "application/json")]
        ++ _create_auth_header email api_token
    ∧ (create_subtask_request (JiraTicketGenerator.init url email api_token pkey)
        pk us ud).headers
      = [("Accept", "application/json"), ("Content-Type", "application/json")]
        ++ _create_auth_header email api_token
    ∧ (JiraTicketGenerator.init url email api_token pkey).jira_url = url
    ∧ (JiraTicketGenerator.init url email api_token pkey).project_key = pkey :=
  ⟨rfl, rfl, rfl, rfl, rfl, rfl⟩

/-- C10: if the tracker responds 201 but the body is not valid JSON or lacks
the field `"key"`, each create operation neither returns a key nor `None`:
the lookup raises an uncaught exception. -/
theorem c10_missing_key_raises (net : Request → HttpResponse)
    (gen : JiraTicketGenerator) (en es ed : String) (ek : Json) (ss sd : String)
    (cs ls : Option (List String)) (pk : Json) (us ud : String) :
    ((net (create_epic_request gen en es ed)).status_code = 201 →
      ((net (create_epic_request gen en es ed)).json.bind
        (fun b => b.lookup "key")) = none →
      (create_epic net gen en es ed).isExn = true)
    ∧ ((net (create_story_request gen ek ss sd cs ls)).status_code = 201 →
      ((net (create_story_request gen ek ss sd cs ls)).json.bind
        (fun b => b.lookup "key")) = none →
      (create_story net gen ek ss sd cs ls).isExn = true)
    ∧ ((net (create_subtask_request gen pk us ud)).status_code = 201 →
      ((net (create_subtask_request gen pk us ud)).json.bind
        (fun b => b.lookup "key")) = none →
      (create_subtask net gen pk us ud).isExn = true) := by
  refine ⟨fun h1 h2 => ?_, fun h1 h2 => ?_, fun h1 h2 => ?_⟩
  · cases hj : (net (create_epic_request gen en es ed)).json with
    | none => simp [create_epic, handleCreateResponse, h1, hj, PyResult.isExn]
    | some b =>
        rw [hj] at h2
        simp at h2
        simp [create_epic, handleCreateResponse, h1, hj, h2, PyResult.isExn]
  · cases hj : (net (create_story_request gen ek ss sd cs ls)).json with
    | none => simp [create_story, handleCreateResponse, h1, hj, PyResult.isExn]
    | some b =>
        rw [hj] at h2
        simp at h2
        simp [create_story, handleCreateResponse, h1, hj, h2, PyResult.isExn]
  · cases hj : (net (create_subtask_request gen pk us ud)).json with
    | none => simp [create_subtask, handleCreateResponse, h1, hj, PyResult.isExn]
    | some b =>
        rw [hj] at h2
        simp at h2
        simp [create_subtask, handleCreateResponse, h1, hj, h2, PyResult.isExn]

/-- Witness for C10: a 201 with a non-JSON body makes the epic create raise,
and a 201 whose object carries only `"id"` makes the story and subtask
creates raise. -/
theorem c10_missing_key_raises_witness :
    (create_epic accept201BadBody driver_jira "e" "s" "d").isExn = true
    ∧ (create_story accept201NoKey driver_jira (Json.str "APA-1") "s" "d"
        (some ["Database"]) (some ["week-1"])).isExn = true
    ∧ (create_subtask accept201NoKey driver_jira (Json.str "APA-1") "s" "d").isExn
      = true :=
  ⟨(c10_missing_key_raises accept201BadBody driver_jira "e" "s" "d"
      (Json.str "APA-1") "s" "d" (some ["Database"]) (some ["week-1"])
      (Json.str "APA-1") "s" "d").1 rfl rfl,
   (c10_missing_key_raises accept201NoKey driver_jira "e" "s" "d"
      (Json.str "APA-1") "s" "d" (some ["Database"]) (some ["week-1"])
      (Json.str "APA-1") "s" "d").2.1 rfl rfl,
   (c10_missing_key_raises accept201NoKey driver_jira "e" "s" "d"
      (Json.str "APA-1") "s" "d" (some ["Database"]) (some ["week-1"])
      (Json.str "APA-1") "s" "d").2.2 rfl rfl⟩

/-- C2 (refuting theorem): the claim states that after a failed parent create
no dependent child create is issued.  Running the driver against a tracker
that rejects every request with 400, the epic create returns `None`, yet the
very next POST issued (trace index 1) is a story create whose epic-link field
is `null`, and the one after it (trace index 2) is a subtask create whose
structural parent key is `null` — child requests with a missing parent
reference are sent. -/
theorem c2_orphan_child_requests_issued :
    ((generate_project_tickets reject400).2[1]?).map
        (fun r => (jsonField2 r.data "fields" "issuetype",
                   jsonField2 r.data "fields" "customfield_10014"))
      = some (some (Json.obj [("name", Json.str "Story")]), some Json.null)
    ∧ ((generate_project_tickets reject400).2[2]?).map
        (fun r => (jsonField2 r.data "fields" "issuetype",
                   jsonField2 r.data "fields" "parent"))
      = some (some (Json.obj [("name", Json.str "Sub-task")]),
              some (Json.obj [("key", Json.null)])) :=
  ⟨rfl, rfl⟩

/-- C8 (refuting/evaluating theorem): `src/main.py` reads the four documented
variables from the process environment but never constructs a client, and
`generate_project_tickets` constructs the client from the placeholder
literals of its body (its embedding reads no environment at all).  Under an
environment that does supply a `JIRA_URL`, the constructed client still
carries the literal URL, email, token and project key. -/
theorem c8_client_credentials_are_literals :
    (main_read_env envSample).jira_url = some "https://real.atlassian.net"
    ∧ (main_read_env envSample).jira_api_key = none
    ∧ driver_jira.jira_url = "https://your-domain.atlassian.net"
    ∧ driver_jira.project_key = "APA"
    ∧ driver_jira.auth_header
      = _create_auth_header (asciiBytes "your-email@example.com")
          (asciiBytes "your-api-token")
    ∧ ¬(driver_jira.jira_url = "https://real.atlassian.net") :=
  ⟨rfl, rfl, rfl, rfl, rfl, by decide⟩

end Aipa
